import Mathlib

/-!
Verification development for the `open-go-kr-parser` repository.

This file shallowly embeds the document-fetching client of `src/client.py`
(`OpenGoKrClient`): the response normalizer `_parse_response`, the detail-URL
builder `_build_detail_url`, the XSRF token cache (`_ensure_xsrf_token`,
`_acquire_xsrf_token`) and the paginated fetch loop `fetch_documents`.

Modelling conventions:
* JSON payloads are `JVal` values.  The only array the client consumes is
  `rtnList`, whose elements are records with string-valued fields, so array
  elements are embedded as `RawItem` (association lists of strings).
* The HTTP session is replaced by two oracles: `ts : Nat → Option String`
  gives the cookie value of the k-th token-acquisition request (`none` when
  the `XSRF-TOKEN` cookie is absent or the acquisition round-trip fails), and
  `server : Nat → Nat → PageResp` gives the outcome of the AJAX request for a
  page: `server page attempt` is the response to attempt number `attempt`
  (0 or 1) of the page-`page` request within one `fetch_documents` call.
  Pages are 1-indexed and each page is visited at most once per call,
  matching the `while True` / `for attempt in range(max_retries + 1)` loops.
* All exceptions escaping `fetch_documents` are collapsed into `FetchError`:
  the `OpenGoKrError` raises are distinguished by the message category of the
  `raise` site, and uncaught Python `ValueError` / `TypeError` /
  `AttributeError` on ill-shaped payloads get their own constructors.
* The page loop is given explicit fuel (one unit per page request); a result
  of `none` means the loop would have issued a further page request, so this
  run needs more fuel (and `none` for every fuel means divergence).
-/

namespace OpenGoKr

/-- Disclosed document record, the `Document` dataclass of `client.py`. -/
structure Document where
  title : String
  date : String
  url : String
  agency_name : String
deriving Repr, DecidableEq

/-- One raw record of `rtnList`: a JSON object with string-valued fields,
looked up with Python `dict.get(key, "")`. -/
abbrev RawItem := List (String × String)

/-- JSON-like values, as consumed by the client.  Arrays occur only as the
`rtnList` payload, whose elements are `RawItem` records. -/
inductive JVal where
  | null
  | str (s : String)
  | num (n : Int)
  | arr (items : List RawItem)
  | obj (fields : List (String × JVal))
deriving Repr

/-- Mutable client state: the cached token `self._xsrf_token`
(`none` embeds Python `None`) plus a ghost counter of token-acquisition
requests issued so far (each `_acquire_xsrf_token` network round-trip). -/
structure ClientState where
  xsrfToken : Option String
  tokenAcquisitions : Nat
deriving Repr, DecidableEq

/-- The state of a freshly constructed `OpenGoKrClient`. -/
def initState : ClientState := { xsrfToken := none, tokenAcquisitions := 0 }

/-- Exceptions escaping `fetch_documents`, distinguished by raise site. -/
inductive FetchError where
  /-- `OpenGoKrError` raised inside `_acquire_xsrf_token`. -/
  | tokenError
  /-- `OpenGoKrError "Failed to parse JSON response"` (non-JSON body). -/
  | parseJsonError
  /-- `OpenGoKrError "HTTP error"`: a non-2xx status, including a 401/403
  whose page-local retry budget is exhausted. -/
  | httpError
  /-- `OpenGoKrError "Network connection error"`. -/
  | connectionError
  /-- `OpenGoKrError "Request timeout"`. -/
  | timeoutError
  /-- `OpenGoKrError "Request failed"` (other `RequestException`). -/
  | requestFailed
  /-- Uncaught `ValueError` from `int(total_count or 0)` in
  `_parse_response` (called outside the `try` block). -/
  | valueError
  /-- Uncaught `TypeError` / `AttributeError` on an ill-shaped payload
  (e.g. `.get` on a non-dict, iterating a non-list). -/
  | typeError
deriving Repr, DecidableEq

/-- Outcome of one AJAX page request (`session.post` on `AJAX_URL` followed
by `raise_for_status` and `response.json()`). -/
inductive PageResp where
  /-- 2xx status and the body parsed as JSON value `body`. -/
  | ok (body : JVal)
  /-- `HTTPError` with status 401 or 403. -/
  | auth
  /-- `HTTPError` with any other non-2xx status. -/
  | http
  /-- 2xx status but `response.json()` raised `JSONDecodeError`. -/
  | badJson
  /-- `requests.exceptions.ConnectionError`. -/
  | conn
  /-- `requests.exceptions.Timeout`. -/
  | timeout
  /-- Any other `requests.exceptions.RequestException`. -/
  | reqFail
deriving Repr

/-- `OpenGoKrClient.DETAIL_URL_BASE`. -/
def DETAIL_URL_BASE : String :=
  "https://www.open.go.kr/othicInfo/infoList/infoListDetl.do"

/-- `OpenGoKrClient.PAGE_SIZE`: fixed row count requested per page. -/
def PAGE_SIZE : Nat := 10

/-- Python `item.get(key, "")` on a raw record. -/
def rawGet (item : RawItem) (key : String) : String :=
  (item.lookup key).getD ""

/-- Python `fields.get(key, dflt)` on a JSON object. -/
def jGet (fields : List (String × JVal)) (key : String) (dflt : JVal) : JVal :=
  (fields.lookup key).getD dflt

/-- `OpenGoKrClient._build_detail_url`: empty unless all three key fields are
non-empty (Python truthiness of `reg_no and prod_dt and inst_se_cd`),
otherwise the f-string interpolation of the three query parameters. -/
def build_detail_url (reg_no prod_dt inst_se_cd : String) : String :=
  if reg_no = "" ∨ prod_dt = "" ∨ inst_se_cd = "" then ""
  else
    DETAIL_URL_BASE ++ "?prdnNstRgstNo=" ++ reg_no ++ "&prdnDt=" ++ prod_dt
      ++ "&nstSeCd=" ++ inst_se_cd

/-- Date normalization inside the `for item in doc_list` loop of
`_parse_response`: `raw_date[:4]-raw_date[4:6]-raw_date[6:8]` when
`raw_date and len(raw_date) >= 8`, else the empty string. -/
def formatDate (raw_date : String) : String :=
  if raw_date ≠ "" ∧ 8 ≤ raw_date.length then
    raw_date.take 4 ++ "-" ++ ((raw_date.drop 4).take 2) ++ "-"
      ++ ((raw_date.drop 6).take 2)
  else ""

/-- Body of the `for item in doc_list` loop of `_parse_response`: one
`Document` built from one raw record, every field defaulting to `""`. -/
def itemToDocument (item : RawItem) : Document :=
  { title := rawGet item "INFO_SJ"
    date := formatDate (rawGet item "PRDCTN_DT")
    url := build_detail_url (rawGet item "PRDCTN_INSTT_REGIST_NO")
      (rawGet item "PRDCTN_DT") (rawGet item "INSTT_SE_CD")
    agency_name := rawGet item "PROC_INSTT_NM" }

/-- Python truthiness of a `JVal` (`if not doc_list`, `total_count or 0`). -/
def pyTruthy : JVal → Bool
  | .null => false
  | .str s => !s.isEmpty
  | .num n => n != 0
  | .arr items => !items.isEmpty
  | .obj fields => !fields.isEmpty

/-- Decimal value of a digit string, most significant digit first. -/
def digitsToNat (cs : List Char) : Nat :=
  cs.foldl (fun acc c => acc * 10 + (c.toNat - 48)) 0

/-- CPython `int(s)` on a string: optional surrounding whitespace, optional
sign, then at least one decimal digit; anything else raises `ValueError`
(`none` here).  Implemented over the character list; digit-group
underscores are not modelled. -/
def pyStrToInt (s : String) : Option Int :=
  match ((s.data.dropWhile Char.isWhitespace).reverse.dropWhile
      Char.isWhitespace).reverse with
  | '-' :: rest =>
    if rest ≠ [] ∧ rest.all Char.isDigit then some (-(digitsToNat rest : Int))
    else none
  | '+' :: rest =>
    if rest ≠ [] ∧ rest.all Char.isDigit then some ((digitsToNat rest : Int))
    else none
  | rest =>
    if rest ≠ [] ∧ rest.all Char.isDigit then some ((digitsToNat rest : Int))
    else none

/-- `int(total_count or 0)` at the end of `_parse_response`: a falsy value
gives `0`; otherwise `int()` applied to the value, raising `ValueError` on a
non-numeric string and `TypeError` on a list/dict. -/
def pyIntCoerce (v : JVal) : Except FetchError Int :=
  if pyTruthy v then
    match v with
    | .num n => .ok n
    | .str s =>
      match pyStrToInt s with
      | some n => .ok n
      | none => .error .valueError
    | _ => .error .typeError
  else .ok 0

/-- `OpenGoKrClient._parse_response`: reads `rtnList` (default `[]`) and
`rtnTotal` (default `0`); an empty/falsy list short-circuits to `([], 0)`;
otherwise one `Document` per raw item plus the coerced total. -/
def parse_response (data : JVal) : Except FetchError (List Document × Int) :=
  match data with
  | .obj fields =>
    let doc_list := jGet fields "rtnList" (.arr [])
    let total_count := jGet fields "rtnTotal" (.num 0)
    if pyTruthy doc_list then
      match doc_list with
      | .arr items =>
        match pyIntCoerce total_count with
        | .ok t => .ok (items.map itemToDocument, t)
        | .error e => .error e
      | _ => .error .typeError
    else .ok ([], 0)
  | _ => .error .typeError

/-- `OpenGoKrClient._acquire_xsrf_token`: one acquisition round-trip; the
cookie value comes from the oracle `ts` at the current request index; an
absent (`none`) or empty cookie raises `OpenGoKrError` (`if not token`). -/
def acquire_xsrf_token (ts : Nat → Option String) (st : ClientState) :
    Except FetchError ClientState :=
  match ts st.tokenAcquisitions with
  | some t =>
    if t = "" then .error .tokenError
    else .ok { xsrfToken := some t, tokenAcquisitions := st.tokenAcquisitions + 1 }
  | none => .error .tokenError

/-- `OpenGoKrClient._ensure_xsrf_token`: acquire only when the cached token
is falsy (`None` or the empty string). -/
def ensure_xsrf_token (ts : Nat → Option String) (st : ClientState) :
    Except FetchError ClientState :=
  match st.xsrfToken with
  | some t => if t = "" then acquire_xsrf_token ts st else .ok st
  | none => acquire_xsrf_token ts st

/-- Payload unwrapping `data = result.get("result", result)` inside the try
block of `fetch_documents`; a non-dict body makes the later `data.get`
raise `AttributeError`. -/
def resolveData (body : JVal) : Except FetchError JVal :=
  match body with
  | .obj fields => .ok (jGet fields "result" (.obj fields))
  | _ => .error .typeError

/-- One iteration of the `for attempt in range(max_retries + 1)` loop of
`fetch_documents` for one page: attempt 0, then — only on a 401/403 — token
invalidation (`self._xsrf_token = None`), re-acquisition and attempt 1.
Every other failure maps per the `except` chain. -/
def requestPage (server : Nat → Nat → PageResp) (ts : Nat → Option String)
    (page : Nat) (st : ClientState) : Except FetchError (JVal × ClientState) :=
  match server page 0 with
  | .ok body => (resolveData body).map (fun d => (d, st))
  | .auth =>
    match ensure_xsrf_token ts { st with xsrfToken := none } with
    | .error e => .error e
    | .ok st1 =>
      match server page 1 with
      | .ok body => (resolveData body).map (fun d => (d, st1))
      | .auth => .error .httpError
      | .http => .error .httpError
      | .badJson => .error .parseJsonError
      | .conn => .error .connectionError
      | .timeout => .error .timeoutError
      | .reqFail => .error .requestFailed
  | .http => .error .httpError
  | .badJson => .error .parseJsonError
  | .conn => .error .connectionError
  | .timeout => .error .timeoutError
  | .reqFail => .error .requestFailed

/-- The `while True` page loop of `fetch_documents`, with explicit fuel (one
unit per page visited).  After each page: extend the aggregate, then
`if len(all_documents) >= total_count or not documents: break`. -/
def fetchPages (server : Nat → Nat → PageResp) (ts : Nat → Option String) :
    Nat → Nat → List Document → ClientState →
    Option (Except FetchError (List Document × ClientState))
  | 0, _, _, _ => none
  | fuel + 1, page, all_documents, st =>
    match requestPage server ts page st with
    | .error e => some (.error e)
    | .ok (data, st1) =>
      match parse_response data with
      | .error e => some (.error e)
      | .ok (documents, total_count) =>
        if total_count ≤ ((all_documents ++ documents).length : Int)
            ∨ documents = [] then
          some (.ok (all_documents ++ documents, st1))
        else fetchPages server ts fuel (page + 1) (all_documents ++ documents) st1

/-- `OpenGoKrClient.fetch_documents`: ensure the token once before the page
loop, then run the loop from page 1 with an empty aggregate. -/
def fetch_documents (server : Nat → Nat → PageResp) (ts : Nat → Option String)
    (fuel : Nat) (st : ClientState) :
    Option (Except FetchError (List Document × ClientState)) :=
  match ensure_xsrf_token ts st with
  | .error e => some (.error e)
  | .ok st1 => fetchPages server ts fuel 1 [] st1

/-! Concrete fixtures used to exercise the embedding on explicit inputs. -/

/-- A well-formed page envelope carrying `items` and reported total `total`. -/
def pageBody (items : List RawItem) (total : Int) : JVal :=
  .obj [("rtnList", .arr items), ("rtnTotal", .num total)]

/-- Ten raw records with every field missing. -/
def tenItems : List RawItem := List.replicate 10 []

/-- The `Document` built from a record with every field missing. -/
def blankDocument : Document :=
  { title := "", date := "", url := "", agency_name := "" }

/-- A server whose every page answers 401 on the first attempt and, on the
retried attempt, a full page of 10 records with reported total 20. -/
def perPageAuthServer : Nat → Nat → PageResp := fun _ attempt =>
  if attempt = 0 then .auth else .ok (pageBody tenItems 20)

/-- A server whose every page carries 10 records and reported total 15. -/
def overshootServer : Nat → Nat → PageResp := fun _ _ =>
  .ok (pageBody tenItems 15)

/-- A server whose first page carries 1 record with reported total 5 and
whose later pages carry 1 record with reported total 2. -/
def shortTotalServer : Nat → Nat → PageResp := fun page _ =>
  if page = 1 then .ok (pageBody [[("INFO_SJ", "P1")]] 5)
  else .ok (pageBody [[("INFO_SJ", "P2")]] 2)

/-- A token oracle that always serves the cookie value `"T"`. -/
def constTs : Nat → Option String := fun _ => some "T"

end OpenGoKr

namespace OpenGoKr

/-! Helper lemmas shared between the claim theorems. -/

/-- Once a page's parse result satisfies the break condition
`len(all_documents) >= total_count or not documents`, the loop returns the
aggregate at once, for any remaining fuel (no further page request). -/
theorem fetchPages_break (server : Nat → Nat → PageResp)
    (ts : Nat → Option String) (fuel page : Nat) (acc : List Document)
    (st st1 : ClientState) (data : JVal) (docs : List Document) (tot : Int)
    (hreq : requestPage server ts page st = .ok (data, st1))
    (hparse : parse_response data = .ok (docs, tot))
    (hstop : tot ≤ ((acc ++ docs).length : Int) ∨ docs = []) :
    fetchPages server ts (fuel + 1) page acc st = some (.ok (acc ++ docs, st1)) := by
  simp only [fetchPages, hreq, hparse]
  rw [if_pos hstop]

/-- A request whose first attempt is not a 401/403 leaves the client state
untouched when it succeeds. -/
theorem requestPage_ok_state (server : Nat → Nat → PageResp)
    (ts : Nat → Option String) (page : Nat) (st : ClientState)
    (h : server page 0 ≠ PageResp.auth) (d : JVal) (st1 : ClientState)
    (hok : requestPage server ts page st = .ok (d, st1)) : st1 = st := by
  cases hsv : server page 0 with
  | ok body =>
    simp only [requestPage, hsv] at hok
    cases hrd : resolveData body with
    | ok v =>
      rw [hrd] at hok
      simp only [Except.map, Except.ok.injEq, Prod.mk.injEq] at hok
      exact hok.2.symm
    | error e =>
      rw [hrd] at hok
      simp only [Except.map] at hok
      exact Except.noConfusion hok
  | auth => exact absurd hsv h
  | http =>
    simp only [requestPage, hsv] at hok
    exact Except.noConfusion hok
  | badJson =>
    simp only [requestPage, hsv] at hok
    exact Except.noConfusion hok
  | conn =>
    simp only [requestPage, hsv] at hok
    exact Except.noConfusion hok
  | timeout =>
    simp only [requestPage, hsv] at hok
    exact Except.noConfusion hok
  | reqFail =>
    simp only [requestPage, hsv] at hok
    exact Except.noConfusion hok

/-- Over a server that never answers 401/403, a successful page loop leaves
the client state untouched: no token is ever re-acquired. -/
theorem fetchPages_ok_state (server : Nat → Nat → PageResp)
    (ts : Nat → Option String) (h : ∀ p, server p 0 ≠ PageResp.auth) :
    ∀ fuel page acc st docs st1,
      fetchPages server ts fuel page acc st = some (.ok (docs, st1)) →
      st1 = st := by
  intro fuel
  induction fuel with
  | zero =>
    intro page acc st docs st1 hf
    simp [fetchPages] at hf
  | succ n ih =>
    intro page acc st docs st1 hf
    cases hrq : requestPage server ts page st with
    | error e =>
      simp only [fetchPages, hrq] at hf
      exact Except.noConfusion (Option.some.inj hf)
    | ok p =>
      obtain ⟨data, st2⟩ := p
      have hst2 : st2 = st :=
        requestPage_ok_state server ts page st (h page) data st2 hrq
      cases hpr : parse_response data with
      | error e =>
        simp only [fetchPages, hrq, hpr] at hf
        exact Except.noConfusion (Option.some.inj hf)
      | ok q =>
        obtain ⟨documents, tot⟩ := q
        simp only [fetchPages, hrq, hpr] at hf
        by_cases hc : tot ≤ ((acc ++ documents).length : Int) ∨ documents = []
        · rw [if_pos hc] at hf
          simp only [Option.some.injEq, Except.ok.injEq, Prod.mk.injEq] at hf
          exact hf.2.symm.trans hst2
        · rw [if_neg hc] at hf
          exact (ih _ _ _ _ _ hf).trans hst2

/-! Claim theorems. -/

/-- C7: for every raw item, the `Document` date is derived from the raw
`PRDCTN_DT` timestamp by truncation to the date component, formatted as
ISO-8601 `YYYY-MM-DD` (first 4, next 2, next 2 characters); a raw timestamp
shorter than 8 characters yields `date = ""`. -/
theorem date_truncation (item : RawItem) :
    (8 ≤ (rawGet item "PRDCTN_DT").length →
      (itemToDocument item).date =
        (rawGet item "PRDCTN_DT").take 4 ++ "-"
          ++ ((rawGet item "PRDCTN_DT").drop 4).take 2 ++ "-"
          ++ ((rawGet item "PRDCTN_DT").drop 6).take 2)
    ∧ ((rawGet item "PRDCTN_DT").length < 8 →
      (itemToDocument item).date = "") := by
  constructor
  · intro h
    have hne : rawGet item "PRDCTN_DT" ≠ "" := by
      intro he
      rw [he] at h
      exact absurd h (by decide)
    show formatDate (rawGet item "PRDCTN_DT") = _
    unfold formatDate
    rw [if_pos ⟨hne, h⟩]
  · intro h
    show formatDate (rawGet item "PRDCTN_DT") = _
    unfold formatDate
    rw [if_neg]
    rintro ⟨-, h8⟩
    omega

/-- Witness for `date_truncation`: the raw timestamp `"20251227120000"`
yields `date = "2025-12-27"`, and a 7-character timestamp yields `""`. -/
theorem date_truncation_witness :
    (itemToDocument [("PRDCTN_DT", "20251227120000")]).date = "2025-12-27"
    ∧ (itemToDocument [("PRDCTN_DT", "2025122")]).date = "" := by
  constructor
  · exact ((date_truncation [("PRDCTN_DT", "20251227120000")]).1
      (by decide)).trans (by decide)
  · exact (date_truncation [("PRDCTN_DT", "2025122")]).2 (by decide)

/-- C8: for every raw item, the `Document` url is non-empty iff all three
key fields (`PRDCTN_INSTT_REGIST_NO`, `PRDCTN_DT`, `INSTT_SE_CD`) are
non-empty; when non-empty it is exactly the detail URL carrying the three
values under the query parameters `prdnNstRgstNo`, `prdnDt` and `nstSeCd`;
when any one is missing or empty, `url = ""`. -/
theorem url_synthesis (item : RawItem) :
    ((rawGet item "PRDCTN_INSTT_REGIST_NO" ≠ "" ∧ rawGet item "PRDCTN_DT" ≠ ""
        ∧ rawGet item "INSTT_SE_CD" ≠ "") →
      (itemToDocument item).url =
        DETAIL_URL_BASE ++ "?prdnNstRgstNo="
          ++ rawGet item "PRDCTN_INSTT_REGIST_NO"
          ++ "&prdnDt=" ++ rawGet item "PRDCTN_DT"
          ++ "&nstSeCd=" ++ rawGet item "INSTT_SE_CD"
        ∧ (itemToDocument item).url ≠ "")
    ∧ ((rawGet item "PRDCTN_INSTT_REGIST_NO" = "" ∨ rawGet item "PRDCTN_DT" = ""
        ∨ rawGet item "INSTT_SE_CD" = "") → (itemToDocument item).url = "") := by
  constructor
  · rintro ⟨h1, h2, h3⟩
    have hcond : ¬(rawGet item "PRDCTN_INSTT_REGIST_NO" = ""
        ∨ rawGet item "PRDCTN_DT" = "" ∨ rawGet item "INSTT_SE_CD" = "") := by
      push_neg
      exact ⟨h1, h2, h3⟩
    have hurl : (itemToDocument item).url =
        DETAIL_URL_BASE ++ "?prdnNstRgstNo="
          ++ rawGet item "PRDCTN_INSTT_REGIST_NO"
          ++ "&prdnDt=" ++ rawGet item "PRDCTN_DT"
          ++ "&nstSeCd=" ++ rawGet item "INSTT_SE_CD" := by
      show build_detail_url _ _ _ = _
      unfold build_detail_url
      rw [if_neg hcond]
    refine ⟨hurl, ?_⟩
    rw [hurl]
    intro he
    have hlen := congrArg String.length he
    have hbase : 0 < DETAIL_URL_BASE.length := by decide
    have hemp : String.length "" = 0 := rfl
    simp only [String.length_append, hemp] at hlen
    omega
  · intro h
    show build_detail_url _ _ _ = ""
    unfold build_detail_url
    rw [if_pos h]

/-- Witness for `url_synthesis`: a record with all three key fields present
yields the full detail URL; a record missing the registration number yields
the empty URL. -/
theorem url_synthesis_witness :
    (itemToDocument [("PRDCTN_INSTT_REGIST_NO", "R1"),
        ("PRDCTN_DT", "20251227120000"), ("INSTT_SE_CD", "C")]).url
      = "https://www.open.go.kr/othicInfo/infoList/infoListDetl.do?prdnNstRgstNo=R1&prdnDt=20251227120000&nstSeCd=C"
    ∧ (itemToDocument [("PRDCTN_DT", "20251227120000"),
        ("INSTT_SE_CD", "C")]).url = "" := by
  constructor
  · exact ((url_synthesis [("PRDCTN_INSTT_REGIST_NO", "R1"),
      ("PRDCTN_DT", "20251227120000"), ("INSTT_SE_CD", "C")]).1
      ⟨by decide, by decide, by decide⟩).1.trans (by decide)
  · exact (url_synthesis [("PRDCTN_DT", "20251227120000"),
      ("INSTT_SE_CD", "C")]).2 (Or.inl (by decide))

/-- On a payload carrying a non-empty `rtnList`, `_parse_response` maps the
items to documents and then coerces the total (shared helper). -/
theorem parse_response_nonempty (items : List RawItem) (v : JVal)
    (hne : items ≠ []) :
    parse_response (.obj [("rtnList", .arr items), ("rtnTotal", v)])
      = match pyIntCoerce v with
        | .ok t => .ok (items.map itemToDocument, t)
        | .error e => .error e := by
  cases items with
  | nil => exact absurd rfl hne
  | cons a as => rfl

/-- Integer totals pass through `int(total_count or 0)` unchanged, the value
`0` via the falsy branch (shared helper). -/
theorem pyIntCoerce_num (n : Int) : pyIntCoerce (.num n) = .ok n := by
  by_cases h : n = 0
  · subst h
    rfl
  · simp [pyIntCoerce, pyTruthy, h]

/-- C10 (amended): for every payload whose raw document list is non-empty
and whose total-count field coerces without error under `int(total or 0)`,
the normalizer returns exactly one `Document` per raw item, in the input
list's order, never dropping or reordering an item regardless of which
fields the item is missing. -/
theorem normalizer_one_document_per_item (fields : List (String × JVal))
    (items : List RawItem) (t : Int)
    (hl : fields.lookup "rtnList" = some (.arr items))
    (hne : items ≠ [])
    (ht : pyIntCoerce (jGet fields "rtnTotal" (.num 0)) = .ok t) :
    parse_response (.obj fields) = .ok (items.map itemToDocument, t)
    ∧ (items.map itemToDocument).length = items.length := by
  have hdl : jGet fields "rtnList" (.arr []) = JVal.arr items := by
    unfold jGet
    rw [hl]
    rfl
  have htr : pyTruthy (JVal.arr items) = true := by
    cases items with
    | nil => exact absurd rfl hne
    | cons a as => rfl
  refine ⟨?_, by simp⟩
  simp only [parse_response, hdl, htr, ht, if_true]

/-- Witness for `normalizer_one_document_per_item`: a two-record page with
total `"7"` yields exactly two documents, in order. -/
theorem normalizer_one_document_per_item_witness :
    parse_response (.obj [("rtnList", .arr [[("INFO_SJ", "first")],
        [("INFO_SJ", "second")]]), ("rtnTotal", .str "7")])
      = .ok ([{ title := "first", date := "", url := "", agency_name := "" },
              { title := "second", date := "", url := "", agency_name := "" }], 7) := by
  exact ((normalizer_one_document_per_item
    [("rtnList", .arr [[("INFO_SJ", "first")], [("INFO_SJ", "second")]]),
      ("rtnTotal", .str "7")]
    [[("INFO_SJ", "first")], [("INFO_SJ", "second")]] 7 rfl (by decide) rfl).1).trans rfl

/-- C10, the claim as frozen, is false: on a payload whose raw document list
is non-empty (two items) but whose `rtnTotal` is the non-numeric string
`"two"`, `_parse_response` does not return one `Document` per item — the
`int()` coercion raises an uncaught `ValueError` instead. -/
theorem normalizer_raise_counterexample :
    parse_response (.obj [("rtnList", .arr [[("INFO_SJ", "A")], [("INFO_SJ", "B")]]),
        ("rtnTotal", .str "two")]) = .error .valueError := by rfl

/-- C6 (amended): with a non-empty raw document list, the total-count field
is coerced by `int(total_count or 0)`: a null or empty value normalizes to
zero, an integer value passes through unchanged — including negative values,
which are not clamped to zero — and a non-numeric string raises an uncaught
`ValueError` instead of normalizing to zero. -/
theorem total_count_coercion (items : List RawItem) (hne : items ≠ []) :
    parse_response (.obj [("rtnList", .arr items), ("rtnTotal", .null)])
        = .ok (items.map itemToDocument, 0)
    ∧ parse_response (.obj [("rtnList", .arr items), ("rtnTotal", .str "")])
        = .ok (items.map itemToDocument, 0)
    ∧ (∀ n : Int, parse_response (.obj [("rtnList", .arr items), ("rtnTotal", .num n)])
        = .ok (items.map itemToDocument, n))
    ∧ (∀ s, s ≠ "" → pyStrToInt s = none →
        parse_response (.obj [("rtnList", .arr items), ("rtnTotal", .str s)])
        = .error .valueError) := by
  refine ⟨?_, ?_, ?_, ?_⟩
  · rw [parse_response_nonempty items _ hne]
    rfl
  · rw [parse_response_nonempty items _ hne]
    rfl
  · intro n
    rw [parse_response_nonempty items _ hne, pyIntCoerce_num n]
  · intro s hs hparse
    rw [parse_response_nonempty items _ hne]
    have hie : s.isEmpty = false := by
      cases hb : s.isEmpty with
      | false => rfl
      | true => exact absurd ((String.isEmpty_iff s).mp hb) hs
    have htr : pyTruthy (.str s) = true := by
      simp [pyTruthy, hie]
    simp [pyIntCoerce, htr, hparse]

/-- Witness for `total_count_coercion` at a concrete one-record page. -/
theorem total_count_coercion_witness :
    parse_response (.obj [("rtnList", .arr [[("INFO_SJ", "W")]]), ("rtnTotal", .null)])
      = .ok ([{ title := "W", date := "", url := "", agency_name := "" }], 0)
    ∧ parse_response (.obj [("rtnList", .arr [[("INFO_SJ", "W")]]),
        ("rtnTotal", .num (-3))])
      = .ok ([{ title := "W", date := "", url := "", agency_name := "" }], -3)
    ∧ parse_response (.obj [("rtnList", .arr [[("INFO_SJ", "W")]]),
        ("rtnTotal", .str "seven")]) = .error .valueError := by
  have h := total_count_coercion [[("INFO_SJ", "W")]] (by decide)
  exact ⟨h.1.trans rfl, (h.2.2.1 (-3)).trans rfl, h.2.2.2 "seven" (by decide) rfl⟩

/-- C6, the claim as frozen, is false: the coercion is not total and not
non-negative.  On a payload with a non-empty list and the unparseable total
`"N/A"`, `_parse_response` raises `ValueError` instead of normalizing the
total to zero. -/
theorem total_coercion_counterexample :
    parse_response (.obj [("rtnList", .arr [[("INFO_SJ", "X")]]),
        ("rtnTotal", .str "N/A")]) = .error .valueError := by rfl

/-- C5 (amended): a page payload missing the document-list / total-count
envelope entirely is not an error: `_parse_response` treats it as an empty
page (`([], 0)`), so the call returns the documents accumulated so far.
Only a body that is not valid JSON fails the call with the parse error
(`OpenGoKrError "Failed to parse JSON response"`).  Individual records
missing fields are tolerated, every field defaulting to the empty string. -/
theorem envelope_tolerance :
    (∀ fields, fields.lookup "rtnList" = none →
      parse_response (.obj fields) = .ok ([], 0))
    ∧ (∀ (server : Nat → Nat → PageResp) (ts : Nat → Option String)
        (fuel : Nat) (st : ClientState) (tok : String),
        st.xsrfToken = some tok → tok ≠ "" → server 1 0 = PageResp.badJson →
        fetch_documents server ts (fuel + 1) st = some (.error .parseJsonError))
    ∧ parse_response (.obj [("rtnList", .arr [[]]), ("rtnTotal", .num 1)])
        = .ok ([blankDocument], 1) := by
  refine ⟨?_, ?_, by rfl⟩
  · intro fields h
    have hdl : jGet fields "rtnList" (.arr []) = JVal.arr [] := by
      unfold jGet
      rw [h]
      rfl
    simp only [parse_response, hdl]
    rfl
  · intro server ts fuel st tok hst htok hsv
    have hens : ensure_xsrf_token ts st = .ok st := by
      simp only [ensure_xsrf_token, hst]
      rw [if_neg htok]
    simp only [fetch_documents, hens, fetchPages, requestPage, hsv]

/-- Witness for `envelope_tolerance`: an envelope with only an unrelated
field parses as the empty page, and a non-JSON body fails the call with the
parse error. -/
theorem envelope_tolerance_witness :
    parse_response (.obj [("other", .null)]) = .ok ([], 0)
    ∧ fetch_documents (fun _ _ => .badJson) constTs 1
        { xsrfToken := some "T", tokenAcquisitions := 1 }
      = some (.error .parseJsonError) := by
  constructor
  · exact envelope_tolerance.1 [("other", .null)] rfl
  · exact envelope_tolerance.2.1 (fun _ _ => .badJson) constTs 0
      { xsrfToken := some "T", tokenAcquisitions := 1 } "T" rfl (by decide) rfl

/-- C5, the claim as frozen, is false: a call whose page payload is a valid
JSON object missing the list/total structure entirely does not raise
`ResponseParseError` — it succeeds and returns the empty list. -/
theorem missing_envelope_counterexample :
    fetch_documents (fun _ _ => .ok (.obj [])) constTs 1 initState
      = some (.ok ([], { xsrfToken := some "T", tokenAcquisitions := 1 })) := by rfl

/-- C1 (amended): the re-acquisition budget is one per page visit, not one
per call.  On each page: a request that does not answer 401/403 leaves the
token state untouched; a first 401/403 triggers exactly one invalidation,
one re-acquisition (acquisition counter incremented by exactly one, fresh
token cached) and one retry of the same page; a 401/403 on that retried
request fails the call with the HTTP error (`RequestError` kind) with no
further re-acquisition.  Because this holds at every page number, a later
page's 401/403 receives a fresh budget instead of failing immediately. -/
theorem retry_budget_per_page (server : Nat → Nat → PageResp)
    (ts : Nat → Option String) (page : Nat) (st : ClientState) (tok : String)
    (hts : ts st.tokenAcquisitions = some tok) (htok : tok ≠ "") :
    (∀ body, server page 0 = .ok body →
      requestPage server ts page st = (resolveData body).map (fun d => (d, st)))
    ∧ (server page 0 = .auth → server page 1 = .auth →
      requestPage server ts page st = .error .httpError)
    ∧ (∀ body, server page 0 = .auth → server page 1 = .ok body →
      requestPage server ts page st = (resolveData body).map (fun d =>
        (d, { xsrfToken := some tok,
              tokenAcquisitions := st.tokenAcquisitions + 1 }))) := by
  have hens : ensure_xsrf_token ts { st with xsrfToken := none }
      = .ok { xsrfToken := some tok,
              tokenAcquisitions := st.tokenAcquisitions + 1 } := by
    simp only [ensure_xsrf_token, acquire_xsrf_token, hts]
    rw [if_neg htok]
  refine ⟨?_, ?_, ?_⟩
  · intro body h
    simp only [requestPage, h]
  · intro h0 h1
    simp only [requestPage, h0, hens, h1]
  · intro body h0 h1
    simp only [requestPage, h0, hens, h1]

/-- Witness for `retry_budget_per_page`: two consecutive 401 answers on the
same page fail the request with the HTTP error. -/
theorem retry_budget_per_page_witness :
    requestPage (fun _ _ => PageResp.auth) constTs 1 initState
      = .error .httpError := by
  exact (retry_budget_per_page (fun _ _ => PageResp.auth) constTs 1 initState
    "T" rfl (by decide)).2.1 rfl rfl

/-- C1, the claim as frozen, is false: with every page answering 401 on its
first attempt and succeeding on its retry, a two-page call succeeds after
three token acquisitions (initial, plus one refresh per page) — whereas the
claim requires the second page's 401 to fail the call with `RequestError`
and no further re-acquisition. -/
theorem retry_budget_counterexample :
    fetch_documents perPageAuthServer constTs 2 initState
      = some (.ok (List.replicate 20 blankDocument,
          { xsrfToken := some "T", tokenAcquisitions := 3 })) := by rfl

/-- C2 (amended): the page loop stops as soon as the accumulated document
count reaches the page's reported total or a page yields zero documents —
issuing no further page request, whatever fuel remains — but the surplus
rows of the final page are still appended, so the returned list can exceed
the server-reported total (see `overshoot_counterexample`). -/
theorem stop_condition_halts_loop (server : Nat → Nat → PageResp)
    (ts : Nat → Option String) (fuel page : Nat) (acc : List Document)
    (st st1 : ClientState) (data : JVal) (docs : List Document) (tot : Int)
    (hreq : requestPage server ts page st = .ok (data, st1))
    (hparse : parse_response data = .ok (docs, tot))
    (hstop : tot ≤ ((acc ++ docs).length : Int) ∨ docs = []) :
    fetchPages server ts (fuel + 1) page acc st = some (.ok (acc ++ docs, st1)) :=
  fetchPages_break server ts fuel page acc st st1 data docs tot hreq hparse hstop

/-- Witness for `stop_condition_halts_loop`: a single page whose one row
meets its reported total of 1 halts the loop at once. -/
theorem stop_condition_halts_loop_witness :
    fetchPages (fun _ _ => .ok (pageBody [[]] 1)) constTs 1 1 [] initState
      = some (.ok ([blankDocument], initState)) := by
  exact stop_condition_halts_loop (fun _ _ => .ok (pageBody [[]] 1)) constTs
    0 1 [] initState initState (pageBody [[]] 1) [blankDocument] 1
    rfl rfl (Or.inl (by decide))

/-- C2, the claim as frozen, is false: over a server that reports total 15
on every page while returning 10 rows per page, the call returns 20
documents — more than the server-reported total for the window. -/
theorem overshoot_counterexample :
    fetch_documents overshootServer constTs 2 initState
      = some (.ok (List.replicate 20 blankDocument,
          { xsrfToken := some "T", tokenAcquisitions := 1 }))
    ∧ parse_response (pageBody tenItems 15)
      = .ok (List.replicate 10 blankDocument, 15)
    ∧ 15 < (List.replicate 20 blankDocument).length := ⟨by rfl, by rfl, by decide⟩

/-- C3: over any sequence of pages that all resolve and parse successfully,
if after each page the page's reported total is at most the number of
documents accumulated so far (the cumulative row count through that page),
then `fetch_documents` terminates — one unit of fuel suffices, so exactly
one page is requested — and returns exactly the concatenation of the
documents of the pages it fetched, in page order (here: page 1's documents,
since the condition at page 1 stops the loop there). -/
theorem totals_covered_terminates (server : Nat → Nat → PageResp)
    (ts : Nat → Option String) (st : ClientState) (tok : String)
    (docsOf : Nat → List Document) (totOf : Nat → Int)
    (hst : st.xsrfToken = some tok) (htok : tok ≠ "")
    (hpages : ∀ p, ∃ body, server p 0 = PageResp.ok body ∧
      (resolveData body).bind parse_response = .ok (docsOf p, totOf p))
    (hcover : ∀ p, 1 ≤ p →
      totOf p ≤ ∑ i in Finset.Icc 1 p, ((docsOf i).length : Int)) :
    ∀ fuel, fetch_documents server ts (fuel + 1) st = some (.ok (docsOf 1, st)) := by
  intro fuel
  have hens : ensure_xsrf_token ts st = .ok st := by
    simp only [ensure_xsrf_token, hst]
    rw [if_neg htok]
  obtain ⟨body, hsv, hbp⟩ := hpages 1
  obtain ⟨d, hres, hpar⟩ : ∃ d, resolveData body = .ok d
      ∧ parse_response d = .ok (docsOf 1, totOf 1) := by
    cases hrd : resolveData body with
    | error e =>
      rw [hrd] at hbp
      exact Except.noConfusion hbp
    | ok v =>
      rw [hrd] at hbp
      exact ⟨v, rfl, hbp⟩
  have hreq : requestPage server ts 1 st = .ok (d, st) := by
    simp only [requestPage, hsv, hres]
    rfl
  have hc1 : totOf 1 ≤ ((docsOf 1).length : Int) := by
    have h := hcover 1 le_rfl
    simpa using h
  have hloop := fetchPages_break server ts fuel 1 [] st st d (docsOf 1) (totOf 1)
    hreq hpar (Or.inl (by simpa using hc1))
  simp only [fetch_documents, hens]
  simpa using hloop

/-- Witness for `totals_covered_terminates`: a server of empty pages with
reported total 0 returns the empty list in one request. -/
theorem totals_covered_terminates_witness :
    fetch_documents (fun _ _ => .ok (.obj [])) constTs 1
        { xsrfToken := some "T", tokenAcquisitions := 1 }
      = some (.ok ([], { xsrfToken := some "T", tokenAcquisitions := 1 })) := by
  exact totals_covered_terminates (fun _ _ => .ok (.obj [])) constTs
    { xsrfToken := some "T", tokenAcquisitions := 1 } "T" (fun _ => []) (fun _ => 0)
    rfl (by decide) (fun p => ⟨.obj [], rfl, rfl⟩)
    (fun p hp => Finset.sum_nonneg (fun i _ => Int.natCast_nonneg _)) 0

/-- C4 (amended): the loop terminates after page 1 exactly when the first
page's returned row count reaches its reported total (or the page is
empty): a reported total at most the rows actually returned stops the loop
after one request, for any remaining fuel; but when the first page returns
fewer rows than a positive reported total — even a total smaller than the
page size 10 — the loop issues a second page request (fuel for one page is
exhausted without an answer). -/
theorem first_page_stop_iff (server : Nat → Nat → PageResp)
    (ts : Nat → Option String) (st st1 : ClientState) (data : JVal)
    (docs : List Document) (tot : Int)
    (hreq : requestPage server ts 1 st = .ok (data, st1))
    (hparse : parse_response data = .ok (docs, tot)) :
    (tot ≤ (docs.length : Int) →
      ∀ fuel, fetchPages server ts (fuel + 1) 1 [] st = some (.ok (docs, st1)))
    ∧ (docs ≠ [] → (docs.length : Int) < tot →
      fetchPages server ts 1 1 [] st = none) := by
  constructor
  · intro h fuel
    have hb := fetchPages_break server ts fuel 1 [] st st1 data docs tot
      hreq hparse (Or.inl (by simpa using h))
    simpa using hb
  · intro hne hlt
    have hcond : ¬(tot ≤ (([] ++ docs).length : Int) ∨ docs = []) := by
      push_neg
      exact ⟨by simpa using hlt, hne⟩
    simp only [fetchPages, hreq, hparse]
    rw [if_neg hcond]

/-- Witness for `first_page_stop_iff`: the first page of `shortTotalServer`
returns 1 row against a reported total of 5, so one page of fuel is
exhausted — a second page request is issued. -/
theorem first_page_stop_iff_witness :
    fetchPages shortTotalServer constTs 1 1 []
        { xsrfToken := some "T", tokenAcquisitions := 1 } = none := by
  exact (first_page_stop_iff shortTotalServer constTs
    { xsrfToken := some "T", tokenAcquisitions := 1 }
    { xsrfToken := some "T", tokenAcquisitions := 1 }
    (pageBody [[("INFO_SJ", "P1")]] 5)
    [{ title := "P1", date := "", url := "", agency_name := "" }] 5
    rfl rfl).2 (by decide) (by decide)

/-- C4, the claim as frozen, is false: on a first page reporting total 5
(smaller than the page size 10) but returning only one row, the loop does
not terminate after page 1 — with fuel for one page it runs out, and with
fuel for two pages the result contains the second page's document `"P2"`,
so a second page request is issued. -/
theorem second_page_request_counterexample :
    fetch_documents shortTotalServer constTs 1 initState = none
    ∧ fetch_documents shortTotalServer constTs 2 initState
      = some (.ok ([{ title := "P1", date := "", url := "", agency_name := "" },
                    { title := "P2", date := "", url := "", agency_name := "" }],
          { xsrfToken := some "T", tokenAcquisitions := 1 })) := ⟨by rfl, by rfl⟩

/-- C9: two sequential successful `fetch_documents` calls on one client with
no intervening authorization failure perform exactly one token acquisition
across both calls: the first call acquires once (counter 1) and the second
call reuses the cached token, leaving the state — token and acquisition
counter — completely unchanged (no proactive re-acquisition ever happens
without an observed 401/403). -/
theorem token_acquired_once_across_calls
    (server1 server2 : Nat → Nat → PageResp) (ts : Nat → Option String)
    (h1 : ∀ p a, server1 p a ≠ PageResp.auth)
    (h2 : ∀ p a, server2 p a ≠ PageResp.auth)
    (fuel1 fuel2 : Nat) (docs1 docs2 : List Document) (st1 st2 : ClientState)
    (hc1 : fetch_documents server1 ts fuel1 initState = some (.ok (docs1, st1)))
    (hc2 : fetch_documents server2 ts fuel2 st1 = some (.ok (docs2, st2))) :
    st1.tokenAcquisitions = 1 ∧ st2 = st1 := by
  cases hts : ts 0 with
  | none =>
    simp only [fetch_documents, ensure_xsrf_token, initState,
      acquire_xsrf_token, hts] at hc1
    exact absurd (Option.some.inj hc1) (fun h => Except.noConfusion h)
  | some t =>
    by_cases ht : t = ""
    · subst ht
      simp only [fetch_documents, ensure_xsrf_token, initState,
        acquire_xsrf_token, hts, if_pos rfl] at hc1
      exact absurd (Option.some.inj hc1) (fun h => Except.noConfusion h)
    · have hens : ensure_xsrf_token ts initState
          = .ok { xsrfToken := some t, tokenAcquisitions := 1 } := by
        simp only [ensure_xsrf_token, initState, acquire_xsrf_token, hts]
        rw [if_neg ht]
      have hst1 : st1 = { xsrfToken := some t, tokenAcquisitions := 1 } := by
        simp only [fetch_documents, hens] at hc1
        exact fetchPages_ok_state server1 ts (fun p => h1 p 0)
          fuel1 1 [] _ docs1 st1 hc1
      have hens2 : ensure_xsrf_token ts st1 = .ok st1 := by
        rw [hst1]
        simp only [ensure_xsrf_token]
        rw [if_neg ht]
      have hst2 : st2 = st1 := by
        simp only [fetch_documents, hens2] at hc2
        exact fetchPages_ok_state server2 ts (fun p => h2 p 0)
          fuel2 1 [] _ docs2 st2 hc2
      exact ⟨by rw [hst1], hst2⟩

/-- Witness for `token_acquired_once_across_calls`: two empty-page fetches
in sequence end with the acquisition counter at 1. -/
theorem token_acquired_once_witness :
    ({ xsrfToken := some "T", tokenAcquisitions := 1 } : ClientState).tokenAcquisitions
      = 1 := by
  exact (token_acquired_once_across_calls (fun _ _ => .ok (.obj []))
    (fun _ _ => .ok (.obj [])) constTs (fun _ _ h => nomatch h)
    (fun _ _ h => nomatch h) 1 1 [] []
    { xsrfToken := some "T", tokenAcquisitions := 1 }
    { xsrfToken := some "T", tokenAcquisitions := 1 } rfl rfl).1

end OpenGoKr
